import Mathlib

/-!
# Verification of the voice-app topic-segmentation engine

Shallow embedding of the incremental topic-segmentation and tree-construction
engine of `voice_app.py`.  The Streamlit session state becomes an explicit
`SessionState` record; the per-utterance controller `process_recording`
becomes a pure function from a classifier outcome, a transcript and a state
to an `Except String SessionState` (the `.error` constructor models a Python
`KeyError` escaping the controller, which leaves the state unchanged since
no mutation precedes the raising subscript in the source).
-/

namespace VoiceApp

/-- A topic-tree node, mirroring the dict built in `add_node`
(`voice_app.py` lines 101-107).  The `children` field is present in the
source dict but is never read nor written afterwards (children are derived
by scanning `parent_id`), so it stays `[]` throughout. -/
structure Node where
  id : Nat
  label : String
  text : String
  parent_id : Option Nat
  children : List Nat
deriving Repr, DecidableEq

/-- The Streamlit session state fields the engine uses
(`voice_app.py` lines 22-38).  `current_topic_text` is initialized in the
source but never read or written afterwards, so it is omitted. -/
structure SessionState where
  tree_nodes : List Node
  current_parent : Option Nat
  conversation_history : List String
  node_counter : Nat
  current_topic_label : Option String
deriving Repr, DecidableEq

/-- The empty session state (`voice_app.py` lines 22-38). -/
def initialState : SessionState :=
  { tree_nodes := []
    current_parent := none
    conversation_history := []
    node_counter := 0
    current_topic_label := none }

/-- The Reset All button handler (`voice_app.py` lines 230-238): every
engine-relevant session field is restored to its initial value. -/
def reset (_s : SessionState) : SessionState :=
  { tree_nodes := []
    current_parent := none
    conversation_history := []
    node_counter := 0
    current_topic_label := none }

/-- The JSON record parsed from the classifier reply.  A field is `none`
when the parsed JSON object lacks the corresponding key (which `json.loads`
accepts: key access on the resulting dict, not parsing, is what fails). -/
structure ClassifierReply where
  topic_changed : Option Bool
  topic_label : Option String
deriving Repr, DecidableEq

/-- What the external classifier call (chat completion + `json.loads`)
does: either some exception is raised inside the `try` block of
`detect_topic_change` (`failure`), or a JSON object is parsed
(`success reply`). -/
inductive ClassifierOutcome where
  | failure
  | success (reply : ClassifierReply)
deriving Repr, DecidableEq

/-- `detect_topic_change` (`voice_app.py` lines 60-97): on success the
parsed record is returned as-is; on any exception the fallback record
`{topic_changed: len(conversation_history) == 0, topic_label: "New Topic"}`
is returned.  `new_text` and `current_topic` only feed the prompt, so they
do not influence the modelled result. -/
def detect_topic_change (_new_text : String) (conversation_history : List String)
    (_current_topic : Option String) (oracle : ClassifierOutcome) : ClassifierReply :=
  match oracle with
  | .success r => r
  | .failure =>
      { topic_changed := some conversation_history.isEmpty
        topic_label := some "New Topic" }

/-- `add_node` (`voice_app.py` lines 99-112): appends a node carrying the
current counter as id, bumps the counter, and returns the new id. -/
def add_node (s : SessionState) (topic_label : String) (full_text : String)
    (parent_id : Option Nat) : SessionState × Nat :=
  let node : Node :=
    { id := s.node_counter
      label := topic_label
      text := full_text
      parent_id := parent_id
      children := [] }
  ({ s with
      tree_nodes := s.tree_nodes ++ [node]
      node_counter := s.node_counter + 1 },
   node.id)

/-- The `for ... if node["id"] == current_node_id: ...; break` loop of
`update_current_node`: the first node whose id matches gets
`" " + additional_text` appended to its text; later duplicates (impossible
in reachable states) are untouched because of the `break`. -/
def updateFirst : List Node → Nat → String → List Node
  | [], _, _ => []
  | node :: rest, current_node_id, additional_text =>
    if node.id = current_node_id then
      { node with text := node.text ++ " " ++ additional_text } :: rest
    else
      node :: updateFirst rest current_node_id additional_text

/-- `update_current_node` (`voice_app.py` lines 114-122): only when the
node list is non-empty and the active pointer is not `None` does the text
of the matching node grow; otherwise nothing happens.  Only `tree_nodes`
can change. -/
def update_current_node (s : SessionState) (additional_text : String) : SessionState :=
  { s with
      tree_nodes :=
        if s.tree_nodes.isEmpty then s.tree_nodes
        else
          match s.current_parent with
          | none => s.tree_nodes
          | some current_node_id =>
              updateFirst s.tree_nodes current_node_id additional_text }

/-- The acceptance guard `if transcript and len(transcript.strip()) > 0`
(`voice_app.py` line 158): since `strip()` removes exactly the leading and
trailing whitespace, the stripped transcript is non-empty (and then the
string itself is truthy) precisely when some character of the transcript
is not whitespace.  Stated over the character list so that it computes. -/
def accepted (transcript : String) : Bool :=
  transcript.data.any fun c => !c.isWhitespace

/-- The ingest core of `process_recording` (`voice_app.py` lines 158-186),
from the point where a transcript string is available.  The guard mirrors
`if transcript and len(transcript.strip()) > 0`.  Subscripts
`topic_info['topic_changed']` (line 170) and `topic_info['topic_label']`
(line 172) sit outside the classifier adapter's `try`, so a missing key
raises a `KeyError` out of the controller before any state mutation;
that is the `.error` result. -/
def process_recording (oracle : ClassifierOutcome) (transcript : String)
    (s : SessionState) : Except String SessionState :=
  if accepted transcript then
    let topic_info :=
      detect_topic_change transcript s.conversation_history
        s.current_topic_label oracle
    match topic_info.topic_changed with
    | none => .error "KeyError: topic_changed"
    | some tc =>
      if tc then
        match topic_info.topic_label with
        | none => .error "KeyError: topic_label"
        | some lbl =>
          let res := add_node s lbl transcript s.current_parent
          let s2 :=
            { res.1 with
                current_parent := some res.2
                current_topic_label := some lbl }
          .ok { s2 with
                  conversation_history := s2.conversation_history ++ [transcript] }
      else
        let s1 := update_current_node s transcript
        .ok { s1 with
                conversation_history := s1.conversation_history ++ [transcript] }
  else
    .ok s

/-- Sequential ingestion of a list of (classifier outcome, transcript)
pairs; a propagating fault stops the run, as an uncaught exception would. -/
def ingestList : List (ClassifierOutcome × String) → SessionState →
    Except String SessionState
  | [], s => .ok s
  | (o, u) :: rest, s =>
    match process_recording o u s with
    | .ok s' => ingestList rest s'
    | .error e => .error e

/-- States reachable from the empty session by ingest steps that complete
normally and by resets.  (A `.error` result leaves the state unchanged, so
it produces no new state.) -/
inductive Reachable : SessionState → Prop where
  | init : Reachable initialState
  | step (o : ClassifierOutcome) (u : String) {s s' : SessionState} :
      Reachable s → process_recording o u s = .ok s' → Reachable s'
  | reset_step {s : SessionState} : Reachable s → Reachable (reset s)

/-- The structural invariant of reachable session states: the node ids are
exactly `0, …, node_counter - 1` in creation order, every node's parent is
its predecessor (`none` for node 0), the active pointer tracks the most
recently created node, and the counter never exceeds the log length. -/
def Inv (s : SessionState) : Prop :=
  s.tree_nodes.map Node.id = List.range s.node_counter ∧
  (∀ nd ∈ s.tree_nodes, nd.parent_id = if nd.id = 0 then none else some (nd.id - 1)) ∧
  s.current_parent = (if s.node_counter = 0 then none else some (s.node_counter - 1)) ∧
  s.node_counter ≤ s.conversation_history.length

theorem updateFirst_map_id (l : List Node) (cid : Nat) (t : String) :
    (updateFirst l cid t).map Node.id = l.map Node.id := by
  induction l with
  | nil => rfl
  | cons node rest ih =>
    rw [updateFirst]
    split
    · rfl
    · simpa using ih

theorem updateFirst_mem (l : List Node) (cid : Nat) (t : String) :
    ∀ nd ∈ updateFirst l cid t,
      ∃ nd0 ∈ l, nd.id = nd0.id ∧ nd.parent_id = nd0.parent_id := by
  induction l with
  | nil => intro nd hnd; exact absurd hnd (by simp [updateFirst])
  | cons node rest ih =>
    intro nd hnd
    rw [updateFirst] at hnd
    by_cases hid : node.id = cid
    · rw [if_pos hid] at hnd
      rcases List.mem_cons.mp hnd with h | h
      · exact ⟨node, List.mem_cons_self .., by rw [h]; exact ⟨rfl, rfl⟩⟩
      · exact ⟨nd, List.mem_cons_of_mem _ h, rfl, rfl⟩
    · rw [if_neg hid] at hnd
      rcases List.mem_cons.mp hnd with h | h
      · exact ⟨node, List.mem_cons_self .., by rw [h]; exact ⟨rfl, rfl⟩⟩
      · obtain ⟨nd0, hnd0, h1, h2⟩ := ih nd h
        exact ⟨nd0, List.mem_cons_of_mem _ hnd0, h1, h2⟩

theorem updateFirst_app {l1 l2 : List Node} {nd : Node} {cid : Nat} (t : String)
    (hnd : nd.id = cid) (hl1 : ∀ x ∈ l1, x.id ≠ cid) :
    updateFirst (l1 ++ nd :: l2) cid t =
      l1 ++ { nd with text := nd.text ++ " " ++ t } :: l2 := by
  induction l1 with
  | nil => simp [updateFirst, hnd]
  | cons a l ih =>
    have ha : a.id ≠ cid := hl1 a (List.mem_cons_self ..)
    rw [List.cons_append, updateFirst, if_neg ha,
      ih fun x hx => hl1 x (List.mem_cons_of_mem _ hx), List.cons_append]

theorem exists_first_of_mem {l : List Node} {i : Nat}
    (h : ∃ nd ∈ l, nd.id = i) :
    ∃ l1 nd l2, l = l1 ++ nd :: l2 ∧ nd.id = i ∧ ∀ x ∈ l1, x.id ≠ i := by
  induction l with
  | nil => simp at h
  | cons a rest ih =>
    by_cases ha : a.id = i
    · exact ⟨[], a, rest, rfl, ha, by simp⟩
    · obtain ⟨nd, hnd, hid⟩ := h
      rcases List.mem_cons.mp hnd with h | h
      · exact absurd (h ▸ hid) ha
      · obtain ⟨l1, nd', l2, hdec, hid', hfirst⟩ := ih ⟨nd, h, hid⟩
        exact ⟨a :: l1, nd', l2, by rw [hdec]; rfl, hid',
          fun x hx => by
            rcases List.mem_cons.mp hx with h | h
            · rw [h]; exact ha
            · exact hfirst x h⟩

/-- Reduction of one ingest step when the utterance is rejected as
empty/whitespace-only: nothing happens. -/
theorem process_rejected (o : ClassifierOutcome) (u : String) (s : SessionState)
    (hu : accepted u = false) :
    process_recording o u s = .ok s := by
  rw [process_recording, hu]
  rfl

/-- Reduction of one ingest step when the classifier reports a topic
change together with a label: a fresh node is appended, carrying the old
active pointer as parent, and the pointer/label/log are updated. -/
theorem process_new_topic (s : SessionState) (u lbl : String)
    (hu : accepted u = true) :
    process_recording (.success ⟨some true, some lbl⟩) u s =
      .ok { tree_nodes := s.tree_nodes ++
              [{ id := s.node_counter, label := lbl, text := u,
                 parent_id := s.current_parent, children := [] }]
            current_parent := some s.node_counter
            conversation_history := s.conversation_history ++ [u]
            node_counter := s.node_counter + 1
            current_topic_label := some lbl } := by
  rw [process_recording, hu]
  rfl

/-- Reduction of one ingest step when the classifier reports a
continuation: only the current node's text and the log can change. -/
theorem process_continuation (s : SessionState) (u : String) (lopt : Option String)
    (hu : accepted u = true) :
    process_recording (.success ⟨some false, lopt⟩) u s =
      .ok { update_current_node s u with
              conversation_history := s.conversation_history ++ [u] } := by
  rw [process_recording, hu]
  rfl

/-- Reduction of one ingest step when the parsed classifier reply lacks
the `topic_changed` key: the subscript on line 170 raises a `KeyError`
before any state mutation. -/
theorem process_missing_topic_changed (s : SessionState) (u : String)
    (lopt : Option String) (hu : accepted u = true) :
    process_recording (.success ⟨none, lopt⟩) u s =
      .error "KeyError: topic_changed" := by
  rw [process_recording, hu]
  rfl

/-- Reduction of one ingest step when the reply reports a topic change
but lacks the `topic_label` key: the subscript on line 172 raises a
`KeyError` before any state mutation. -/
theorem process_missing_label (s : SessionState) (u : String)
    (hu : accepted u = true) :
    process_recording (.success ⟨some true, none⟩) u s =
      .error "KeyError: topic_label" := by
  rw [process_recording, hu]
  rfl

/-- A failing classifier call behaves exactly like a successful call
returning the fallback record of `detect_topic_change`. -/
theorem process_failure (u : String) (s : SessionState) :
    process_recording .failure u s =
      process_recording
        (.success ⟨some s.conversation_history.isEmpty, some "New Topic"⟩) u s := rfl

theorem update_current_node_map_id (s : SessionState) (u : String) :
    (update_current_node s u).tree_nodes.map Node.id = s.tree_nodes.map Node.id := by
  rw [update_current_node]
  dsimp only
  split
  · rfl
  · split
    · rfl
    · exact updateFirst_map_id ..

theorem update_current_node_mem (s : SessionState) (u : String) :
    ∀ nd ∈ (update_current_node s u).tree_nodes,
      ∃ nd0 ∈ s.tree_nodes, nd.id = nd0.id ∧ nd.parent_id = nd0.parent_id := by
  rw [update_current_node]
  dsimp only
  split
  · exact fun nd hnd => ⟨nd, hnd, rfl, rfl⟩
  · split
    · exact fun nd hnd => ⟨nd, hnd, rfl, rfl⟩
    · exact updateFirst_mem _ _ _

/-- The new-topic branch of ingest preserves the structural invariant. -/
theorem inv_new_topic {s : SessionState} (u lbl : String) (h : Inv s) :
    Inv { tree_nodes := s.tree_nodes ++
            [{ id := s.node_counter, label := lbl, text := u,
               parent_id := s.current_parent, children := [] }]
          current_parent := some s.node_counter
          conversation_history := s.conversation_history ++ [u]
          node_counter := s.node_counter + 1
          current_topic_label := some lbl } := by
  obtain ⟨h1, h2, h3, h4⟩ := h
  refine ⟨?_, ?_, ?_, ?_⟩
  · simp only [List.map_append, h1, List.range_succ, List.map_cons, List.map_nil]
  · intro nd hnd
    rcases List.mem_append.mp hnd with hmem | hmem
    · exact h2 nd hmem
    · rw [List.mem_singleton.mp hmem]
      exact h3
  · simp
  · simp only [List.length_append, List.length_cons, List.length_nil]
    omega

/-- The continuation branch of ingest preserves the structural invariant. -/
theorem inv_continuation {s : SessionState} (u : String) (h : Inv s) :
    Inv { update_current_node s u with
            conversation_history := s.conversation_history ++ [u] } := by
  obtain ⟨h1, h2, h3, h4⟩ := h
  refine ⟨?_, ?_, h3, ?_⟩
  · show (update_current_node s u).tree_nodes.map Node.id = List.range s.node_counter
    rw [update_current_node_map_id, h1]
  · intro nd hnd
    obtain ⟨nd0, hnd0, hid, hpar⟩ := update_current_node_mem s u nd hnd
    rw [hid, hpar]
    exact h2 nd0 hnd0
  · show s.node_counter ≤ (s.conversation_history ++ [u]).length
    simp only [List.length_append, List.length_cons, List.length_nil]
    omega

/-- One completed ingest step preserves the structural invariant. -/
theorem inv_step {s s' : SessionState} {o : ClassifierOutcome} {u : String}
    (ih : Inv s) (hstep : process_recording o u s = .ok s') : Inv s' := by
  by_cases hu : accepted u = true
  · cases o with
    | failure =>
      rw [process_failure] at hstep
      cases hE : s.conversation_history.isEmpty with
      | true =>
        rw [hE, process_new_topic s u "New Topic" hu] at hstep
        rw [Except.ok.injEq] at hstep
        rw [← hstep]
        exact inv_new_topic u "New Topic" ih
      | false =>
        rw [hE, process_continuation s u (some "New Topic") hu] at hstep
        rw [Except.ok.injEq] at hstep
        rw [← hstep]
        exact inv_continuation u ih
    | success r =>
      obtain ⟨tcopt, lopt⟩ := r
      cases tcopt with
      | none =>
        rw [process_missing_topic_changed s u lopt hu] at hstep
        exact Except.noConfusion hstep
      | some tc =>
        cases tc with
        | false =>
          rw [process_continuation s u lopt hu] at hstep
          rw [Except.ok.injEq] at hstep
          rw [← hstep]
          exact inv_continuation u ih
        | true =>
          cases lopt with
          | none =>
            rw [process_missing_label s u hu] at hstep
            exact Except.noConfusion hstep
          | some lbl =>
            rw [process_new_topic s u lbl hu] at hstep
            rw [Except.ok.injEq] at hstep
            rw [← hstep]
            exact inv_new_topic u lbl ih
  · rw [process_rejected o u s (by simpa using hu)] at hstep
    rw [Except.ok.injEq] at hstep
    rw [← hstep]
    exact ih

/-- Every reachable session state satisfies the structural invariant. -/
theorem reachable_inv {s : SessionState} (h : Reachable s) : Inv s := by
  induction h with
  | init =>
    exact ⟨rfl, fun nd hnd => absurd hnd (List.not_mem_nil nd), rfl, Nat.le_refl 0⟩
  | step o u _ hstep ih => exact inv_step ih hstep
  | reset_step _ _ =>
    exact ⟨rfl, fun nd hnd => absurd hnd (List.not_mem_nil nd), rfl, Nat.le_refl 0⟩

/-- In a reachable state with an empty Conversation Log, the tree is
empty, the active pointer is cleared and the id counter is zero. -/
theorem empty_log_state {s : SessionState} (h : Reachable s)
    (hlog : s.conversation_history = []) :
    s.tree_nodes = [] ∧ s.current_parent = none ∧ s.node_counter = 0 := by
  obtain ⟨h1, _, h3, h4⟩ := reachable_inv h
  rw [hlog] at h4
  have hc : s.node_counter = 0 := Nat.le_zero.mp (by simpa using h4)
  rw [hc] at h1 h3
  rw [List.range_zero] at h1
  rw [if_pos rfl] at h3
  exact ⟨List.map_eq_nil_iff.mp h1, h3, hc⟩

/-- One completed ingest step peels off the head of an `ingestList` run. -/
theorem ingestList_cons_ok {o : ClassifierOutcome} {u : String}
    {s s1 : SessionState} (h : process_recording o u s = .ok s1)
    (rest : List (ClassifierOutcome × String)) :
    ingestList ((o, u) :: rest) s = ingestList rest s1 := by
  rw [ingestList, h]

/-- Running any number of accepted utterances that all report a topic
change appends the next block of consecutive ids to the tree. -/
theorem ingestList_allTrue (ps : List (String × String)) (s : SessionState)
    (h : ∀ p ∈ ps, accepted p.2 = true) :
    ∃ s', ingestList
        (ps.map fun p => (ClassifierOutcome.success ⟨some true, some p.1⟩, p.2)) s =
        .ok s' ∧
      s'.tree_nodes.map Node.id =
        s.tree_nodes.map Node.id ++ List.range' s.node_counter ps.length := by
  induction ps generalizing s with
  | nil => exact ⟨s, rfl, by simp⟩
  | cons p rest ih =>
    obtain ⟨lbl, u⟩ := p
    have hu : accepted u = true := h (lbl, u) (List.mem_cons_self ..)
    have hrest : ∀ q ∈ rest, accepted q.2 = true :=
      fun q hq => h q (List.mem_cons_of_mem _ hq)
    obtain ⟨s', hrun, hmap⟩ := ih
      { tree_nodes := s.tree_nodes ++
          [{ id := s.node_counter, label := lbl, text := u,
             parent_id := s.current_parent, children := [] }]
        current_parent := some s.node_counter
        conversation_history := s.conversation_history ++ [u]
        node_counter := s.node_counter + 1
        current_topic_label := some lbl } hrest
    refine ⟨s', ?_, ?_⟩
    · simp only [List.map_cons]
      rw [ingestList_cons_ok (process_new_topic s u lbl hu)]
      exact hrun
    · rw [hmap]
      show (s.tree_nodes ++ [_]).map Node.id ++
          List.range' (s.node_counter + 1) rest.length =
        s.tree_nodes.map Node.id ++ List.range' s.node_counter (rest.length + 1)
      rw [List.map_append, List.range'_succ]
      simp

/-- C1 (counterexample): in the empty session state (whose Conversation
Log is empty), an accepted utterance with a classifier that successfully
returns `topic_changed = false` produces no node at all — the resulting
tree is still empty — refuting the claim that at least one node with
`parent_id = None` appears regardless of classifier output. -/
theorem C1_counterexample :
    process_recording (.success ⟨some false, some "X"⟩) "hello" initialState =
      .ok { tree_nodes := []
            current_parent := none
            conversation_history := ["hello"]
            node_counter := 0
            current_topic_label := none } ∧
    SessionState.tree_nodes
      { tree_nodes := []
        current_parent := none
        conversation_history := ["hello"]
        node_counter := 0
        current_topic_label := none } = ([] : List Node) :=
  ⟨rfl, rfl⟩

/-- C1 (amended): in every reachable session state whose Conversation Log
is empty, processing one accepted utterance produces at least one node
with `parent_id = None` whenever the classifier call fails or successfully
returns `topic_changed = true` with a label; (the counterexample shows a
successful `topic_changed = false` reply instead produces no node). -/
theorem C1_first_utterance_root (s : SessionState) (o : ClassifierOutcome)
    (u : String) (hr : Reachable s) (hlog : s.conversation_history = [])
    (hu : accepted u = true)
    (ho : o = .failure ∨ ∃ lbl, o = .success ⟨some true, some lbl⟩) :
    ∃ s' nd, process_recording o u s = .ok s' ∧
      nd ∈ s'.tree_nodes ∧ nd.parent_id = none := by
  obtain ⟨_, hp, _⟩ := empty_log_state hr hlog
  have key : ∀ L : String,
      ∃ s' nd, process_recording (.success ⟨some true, some L⟩) u s = .ok s' ∧
        nd ∈ s'.tree_nodes ∧ nd.parent_id = none := by
    intro L
    rw [process_new_topic s u L hu]
    exact ⟨_, ⟨s.node_counter, L, u, s.current_parent, []⟩, rfl,
      List.mem_append_right _ (List.mem_singleton_self _), hp⟩
  rcases ho with rfl | ⟨lbl, rfl⟩
  · rw [process_failure, hlog]
    exact key "New Topic"
  · exact key lbl

theorem C1_first_utterance_root_witness :
    ∃ s' nd, process_recording .failure "hello" initialState = .ok s' ∧
      nd ∈ s'.tree_nodes ∧ nd.parent_id = none :=
  C1_first_utterance_root initialState .failure "hello" Reachable.init rfl
    (by decide) (Or.inl rfl)

/-- C2 (counterexample): a successfully parsed classifier reply lacking
the `topic_changed` field does not behave like a failed call: the failed
call yields a normal fallback result while the malformed reply makes the
controller raise a `KeyError` that propagates out of it. -/
theorem C2_counterexample :
    process_recording (.success ⟨none, some "X"⟩) "hello" initialState =
      .error "KeyError: topic_changed" ∧
    process_recording .failure "hello" initialState ≠
      process_recording (.success ⟨none, some "X"⟩) "hello" initialState :=
  ⟨rfl, fun h => Except.noConfusion h⟩

/-- C2 (amended): only an unparseable reply (an exception inside
`detect_topic_change`, the `failure` outcome) triggers the fallback.  A
parsed record lacking `topic_changed` — or lacking `topic_label` while
reporting `topic_changed = true` — raises a `KeyError` that propagates out
of the controller with no state change; a record lacking `topic_label`
while reporting `topic_changed = false` is processed as an ordinary
continuation, not as a failed call. -/
theorem C2_malformed_reply (s : SessionState) (u : String)
    (lopt : Option String) (hu : accepted u = true) :
    process_recording (.success ⟨none, lopt⟩) u s =
      .error "KeyError: topic_changed" ∧
    process_recording (.success ⟨some true, none⟩) u s =
      .error "KeyError: topic_label" ∧
    process_recording (.success ⟨some false, none⟩) u s =
      process_recording (.success ⟨some false, lopt⟩) u s ∧
    process_recording .failure u s =
      process_recording
        (.success ⟨some s.conversation_history.isEmpty, some "New Topic"⟩) u s := by
  refine ⟨process_missing_topic_changed s u lopt hu,
    process_missing_label s u hu, ?_, process_failure u s⟩
  rw [process_continuation s u none hu, process_continuation s u lopt hu]

theorem C2_malformed_reply_witness :
    accepted "hi" = true ∧
    process_recording (.success ⟨none, some "X"⟩) "hi" initialState =
      .error "KeyError: topic_changed" :=
  ⟨by decide, (C2_malformed_reply initialState "hi" (some "X") (by decide)).1⟩

/-- C3: in every reachable state with an empty Conversation Log, a failing
classifier call still makes `ingest "hello"` produce exactly one new root
node labeled "New Topic" with text "hello"; and in general the fallback
decision of `detect_topic_change` on failure is
`topic_changed = (the log was empty at the start of the ingest)` with
label "New Topic". -/
theorem C3_failure_fallback (s : SessionState) (hr : Reachable s)
    (hlog : s.conversation_history = []) :
    process_recording .failure "hello" s =
      .ok { tree_nodes := [{ id := 0, label := "New Topic", text := "hello",
                             parent_id := none, children := [] }]
            current_parent := some 0
            conversation_history := ["hello"]
            node_counter := 1
            current_topic_label := some "New Topic" } ∧
    ∀ (newText : String) (hist : List String) (cur : Option String),
      detect_topic_change newText hist cur .failure =
        { topic_changed := some hist.isEmpty
          topic_label := some "New Topic" } := by
  obtain ⟨ht, hp, hc⟩ := empty_log_state hr hlog
  refine ⟨?_, fun newText hist cur => rfl⟩
  rw [process_failure, hlog]
  simp only [List.isEmpty_nil]
  rw [process_new_topic s "hello" "New Topic" (by decide)]
  rw [ht, hp, hc, hlog]
  rfl

theorem C3_failure_fallback_witness :
    process_recording .failure "hello" initialState =
      .ok { tree_nodes := [{ id := 0, label := "New Topic", text := "hello",
                             parent_id := none, children := [] }]
            current_parent := some 0
            conversation_history := ["hello"]
            node_counter := 1
            current_topic_label := some "New Topic" } :=
  (C3_failure_fallback initialState Reachable.init rfl).1

/-- C4: when the classifier successfully returns `topic_changed = false`
and the active pointer carries the id of an existing node, ingest keeps
the node count unchanged and appends `" " + utterance` to that node's
text (the first node with that id, the only one when ids are unique, as
they are in every reachable state), leaving every other node unchanged. -/
theorem C4_continuation_preserves (s : SessionState) (u : String)
    (lopt : Option String) (i : Nat)
    (hp : s.current_parent = some i)
    (hmem : ∃ nd ∈ s.tree_nodes, nd.id = i)
    (hu : accepted u = true) :
    ∃ s', process_recording (.success ⟨some false, lopt⟩) u s = .ok s' ∧
      s'.tree_nodes.length = s.tree_nodes.length ∧
      ∃ l1 nd l2,
        s.tree_nodes = l1 ++ nd :: l2 ∧ nd.id = i ∧ (∀ x ∈ l1, x.id ≠ i) ∧
        s'.tree_nodes = l1 ++ { nd with text := nd.text ++ " " ++ u } :: l2 := by
  obtain ⟨l1, nd, l2, hdec, hid, hfirst⟩ := exists_first_of_mem hmem
  have hne : s.tree_nodes.isEmpty = false := by
    rw [hdec]; cases l1 <;> rfl
  have htree : (update_current_node s u).tree_nodes =
      l1 ++ { nd with text := nd.text ++ " " ++ u } :: l2 := by
    have h0 : (update_current_node s u).tree_nodes =
        updateFirst s.tree_nodes i u := by
      rw [update_current_node]
      dsimp only
      rw [hne, hp]
      rfl
    rw [h0, hdec, updateFirst_app u hid hfirst]
  refine ⟨_, process_continuation s u lopt hu, ?_,
    l1, nd, l2, hdec, hid, hfirst, htree⟩
  show (update_current_node s u).tree_nodes.length = s.tree_nodes.length
  rw [htree, hdec]
  simp

theorem C4_continuation_preserves_witness :
    ∃ s', process_recording (.success ⟨some false, some "L"⟩) "more"
        { tree_nodes := [{ id := 0, label := "A", text := "t",
                           parent_id := none, children := [] }]
          current_parent := some 0
          conversation_history := ["t"]
          node_counter := 1
          current_topic_label := some "A" } = .ok s' ∧
      s'.tree_nodes.length =
        (SessionState.tree_nodes
          { tree_nodes := [{ id := 0, label := "A", text := "t",
                             parent_id := none, children := [] }]
            current_parent := some 0
            conversation_history := ["t"]
            node_counter := 1
            current_topic_label := some "A" }).length ∧
      ∃ l1 nd l2,
        SessionState.tree_nodes
          { tree_nodes := [{ id := 0, label := "A", text := "t",
                             parent_id := none, children := [] }]
            current_parent := some 0
            conversation_history := ["t"]
            node_counter := 1
            current_topic_label := some "A" } = l1 ++ nd :: l2 ∧
        nd.id = 0 ∧ (∀ x ∈ l1, x.id ≠ 0) ∧
        s'.tree_nodes = l1 ++ { nd with text := nd.text ++ " " ++ "more" } :: l2 :=
  C4_continuation_preserves _ "more" (some "L") 0 rfl
    ⟨{ id := 0, label := "A", text := "t", parent_id := none, children := [] },
      List.mem_singleton_self _, rfl⟩ (by decide)

/-- C5: from the empty session, utterances `u1, u2, u3` with classifier
decisions `(true, "A")`, `(false, _)`, `(true, "B")` yield exactly two
nodes — node 0 with label "A", text `u1 u2`, parent `None`, and node 1
with label "B", text `u3`, parent 0 — with the active pointer at node 1;
and in general, on every topic change the new node's parent is the
previously active node. -/
theorem C5_nesting_chain (u1 u2 u3 lblMid : String)
    (h1 : accepted u1 = true) (h2 : accepted u2 = true)
    (h3 : accepted u3 = true) :
    ingestList
      [(.success ⟨some true, some "A"⟩, u1),
       (.success ⟨some false, some lblMid⟩, u2),
       (.success ⟨some true, some "B"⟩, u3)] initialState =
      .ok { tree_nodes := [{ id := 0, label := "A", text := u1 ++ " " ++ u2,
                             parent_id := none, children := [] },
                           { id := 1, label := "B", text := u3,
                             parent_id := some 0, children := [] }]
            current_parent := some 1
            conversation_history := [u1, u2, u3]
            node_counter := 2
            current_topic_label := some "B" } ∧
    ∀ (s : SessionState) (u lbl : String), accepted u = true →
      process_recording (.success ⟨some true, some lbl⟩) u s =
        .ok { tree_nodes := s.tree_nodes ++
                [{ id := s.node_counter, label := lbl, text := u,
                   parent_id := s.current_parent, children := [] }]
              current_parent := some s.node_counter
              conversation_history := s.conversation_history ++ [u]
              node_counter := s.node_counter + 1
              current_topic_label := some lbl } := by
  refine ⟨?_, fun s u lbl hu => process_new_topic s u lbl hu⟩
  rw [ingestList_cons_ok (process_new_topic initialState u1 "A" h1)]
  rw [ingestList_cons_ok (process_continuation _ u2 (some lblMid) h2)]
  rw [ingestList_cons_ok (process_new_topic _ u3 "B" h3)]
  rfl

theorem C5_nesting_chain_witness :
    ingestList
      [(.success ⟨some true, some "A"⟩, "a"),
       (.success ⟨some false, some "Z"⟩, "b"),
       (.success ⟨some true, some "B"⟩, "c")] initialState =
      .ok { tree_nodes := [{ id := 0, label := "A", text := "a" ++ " " ++ "b",
                             parent_id := none, children := [] },
                           { id := 1, label := "B", text := "c",
                             parent_id := some 0, children := [] }]
            current_parent := some 1
            conversation_history := ["a", "b", "c"]
            node_counter := 2
            current_topic_label := some "B" } :=
  (C5_nesting_chain "a" "b" "c" "Z" (by decide) (by decide) (by decide)).1

/-- C6: from the empty session, any sequence of `n` accepted utterances
each classified as `topic_changed = true` (with any labels) produces
nodes whose ids are exactly `0, 1, …, n-1` in creation order, with no id
reused. -/
theorem C6_monotonic_ids (ps : List (String × String))
    (h : ∀ p ∈ ps, accepted p.2 = true) :
    ∃ s', ingestList
        (ps.map fun p => (ClassifierOutcome.success ⟨some true, some p.1⟩, p.2))
        initialState = .ok s' ∧
      s'.tree_nodes.map Node.id = List.range ps.length ∧
      (s'.tree_nodes.map Node.id).Nodup := by
  obtain ⟨s', hrun, hmap⟩ := ingestList_allTrue ps initialState h
  have hr : s'.tree_nodes.map Node.id = List.range ps.length := by
    rw [hmap]
    show List.map Node.id [] ++ List.range' 0 ps.length = List.range ps.length
    rw [List.map_nil, List.nil_append, List.range_eq_range']
  refine ⟨s', hrun, hr, ?_⟩
  rw [hr]
  exact List.nodup_range ps.length

theorem C6_monotonic_ids_witness :
    ∃ s', ingestList
        ([(("A" : String), ("a" : String)), ("B", "b")].map fun p =>
          (ClassifierOutcome.success ⟨some true, some p.1⟩, p.2))
        initialState = .ok s' ∧
      s'.tree_nodes.map Node.id =
        List.range [(("A" : String), ("a" : String)), ("B", "b")].length ∧
      (s'.tree_nodes.map Node.id).Nodup :=
  C6_monotonic_ids [("A", "a"), ("B", "b")] (by decide)

/-- C7 (counterexample): right after a reset, an accepted utterance whose
classifier successfully returns `topic_changed = false` creates no node at
all, refuting the part of the claim saying the next accepted utterance
always creates node id 0. -/
theorem C7_counterexample :
    process_recording (.success ⟨some false, some "X"⟩) "hi" (reset initialState) =
      .ok { tree_nodes := []
            current_parent := none
            conversation_history := ["hi"]
            node_counter := 0
            current_topic_label := none } ∧
    SessionState.tree_nodes
      { tree_nodes := []
        current_parent := none
        conversation_history := ["hi"]
        node_counter := 0
        current_topic_label := none } = ([] : List Node) :=
  ⟨rfl, rfl⟩

/-- C7 (amended): `reset` is idempotent — applied to any state, two resets
equal one reset, which equals the empty session state; after `reset`, the
next accepted utterance creates node id 0 with `parent_id = None` when the
classifier fails or successfully reports a topic change with a label (when
it successfully returns `topic_changed = false`, no node is created, per
the counterexample). -/
theorem C7_reset_idempotent (s : SessionState) (u lbl : String)
    (hu : accepted u = true) :
    reset (reset s) = reset s ∧
    reset s = initialState ∧
    process_recording .failure u (reset s) =
      .ok { tree_nodes := [{ id := 0, label := "New Topic", text := u,
                             parent_id := none, children := [] }]
            current_parent := some 0
            conversation_history := [u]
            node_counter := 1
            current_topic_label := some "New Topic" } ∧
    process_recording (.success ⟨some true, some lbl⟩) u (reset s) =
      .ok { tree_nodes := [{ id := 0, label := lbl, text := u,
                             parent_id := none, children := [] }]
            current_parent := some 0
            conversation_history := [u]
            node_counter := 1
            current_topic_label := some lbl } := by
  refine ⟨rfl, rfl, ?_, ?_⟩
  · rw [process_failure]
    exact process_new_topic (reset s) u "New Topic" hu
  · exact process_new_topic (reset s) u lbl hu

theorem C7_reset_idempotent_witness :
    reset (reset initialState) = reset initialState ∧
    reset initialState = initialState ∧
    process_recording .failure "hi" (reset initialState) =
      .ok { tree_nodes := [{ id := 0, label := "New Topic", text := "hi",
                             parent_id := none, children := [] }]
            current_parent := some 0
            conversation_history := ["hi"]
            node_counter := 1
            current_topic_label := some "New Topic" } ∧
    process_recording (.success ⟨some true, some "B"⟩) "hi" (reset initialState) =
      .ok { tree_nodes := [{ id := 0, label := "B", text := "hi",
                             parent_id := none, children := [] }]
            current_parent := some 0
            conversation_history := ["hi"]
            node_counter := 1
            current_topic_label := some "B" } :=
  C7_reset_idempotent initialState "hi" "B" (by decide)

/-- C8: an utterance that is empty or whitespace-only (no non-whitespace
character, i.e. rejected by the acceptance guard) changes nothing: the
whole session state is returned unchanged and no fault is raised. -/
theorem C8_blank_rejected (s : SessionState) (o : ClassifierOutcome)
    (u : String) (hu : accepted u = false) :
    process_recording o u s = .ok s :=
  process_rejected o u s hu

theorem C8_blank_rejected_witness :
    accepted "   " = false ∧
    process_recording .failure "   " initialState = .ok initialState :=
  ⟨by decide, C8_blank_rejected initialState .failure "   " (by decide)⟩

/-- C9: in every state reachable from the empty session by ingest and
reset operations, the active pointer is either `None` or the id of a node
present in the collection — so the silent no-op branch of
`update_current_node` for a stale non-`None` pointer is never taken. -/
theorem C9_active_pointer_valid (s : SessionState) (hr : Reachable s) :
    s.current_parent = none ∨
      ∃ nd ∈ s.tree_nodes, some nd.id = s.current_parent := by
  obtain ⟨h1, _, h3, _⟩ := reachable_inv hr
  by_cases hc : s.node_counter = 0
  · exact Or.inl (by rw [h3, if_pos hc])
  · refine Or.inr ?_
    have hmem : s.node_counter - 1 ∈ s.tree_nodes.map Node.id := by
      rw [h1]
      exact List.mem_range.mpr (by omega)
    obtain ⟨nd, hnd, hid⟩ := List.mem_map.mp hmem
    exact ⟨nd, hnd, by rw [h3, if_neg hc, hid]⟩

theorem C9_active_pointer_valid_witness :
    ({ tree_nodes := [{ id := 0, label := "New Topic", text := "hi",
                        parent_id := none, children := [] }]
       current_parent := some 0
       conversation_history := ["hi"]
       node_counter := 1
       current_topic_label := some "New Topic" } : SessionState).current_parent =
        none ∨
      ∃ nd ∈ ({ tree_nodes := [{ id := 0, label := "New Topic", text := "hi",
                                 parent_id := none, children := [] }]
                current_parent := some 0
                conversation_history := ["hi"]
                node_counter := 1
                current_topic_label := some "New Topic" } :
                SessionState).tree_nodes,
        some nd.id =
          ({ tree_nodes := [{ id := 0, label := "New Topic", text := "hi",
                              parent_id := none, children := [] }]
             current_parent := some 0
             conversation_history := ["hi"]
             node_counter := 1
             current_topic_label := some "New Topic" } :
             SessionState).current_parent :=
  C9_active_pointer_valid _ (Reachable.step .failure "hi" Reachable.init rfl)

/-- C10: every reachable state is a single chain — the ids present are
exactly `0 … node_counter - 1` in order, a node's parent is its
predecessor (`None` exactly for node 0, which is therefore the only
root), and whenever the collection is non-empty the active pointer is the
most recently created node, `node_counter - 1`. -/
theorem C10_single_chain (s : SessionState) (hr : Reachable s) :
    s.tree_nodes.map Node.id = List.range s.node_counter ∧
    (∀ nd ∈ s.tree_nodes,
      nd.parent_id = if nd.id = 0 then none else some (nd.id - 1)) ∧
    (∀ nd ∈ s.tree_nodes, nd.parent_id = none → nd.id = 0) ∧
    (s.tree_nodes ≠ [] → s.current_parent = some (s.node_counter - 1)) := by
  obtain ⟨h1, h2, h3, _⟩ := reachable_inv hr
  refine ⟨h1, h2, ?_, ?_⟩
  · intro nd hnd hpar
    by_contra hne
    have h := h2 nd hnd
    rw [if_neg hne, hpar] at h
    exact Option.noConfusion h
  · intro hne
    have hc : s.node_counter ≠ 0 := by
      intro h0
      rw [h0, List.range_zero] at h1
      exact hne (List.map_eq_nil_iff.mp h1)
    rw [h3, if_neg hc]

theorem C10_single_chain_witness :
    ({ tree_nodes := [{ id := 0, label := "New Topic", text := "hey",
                        parent_id := none, children := [] }]
       current_parent := some 0
       conversation_history := ["hey"]
       node_counter := 1
       current_topic_label := some "New Topic" } :
       SessionState).tree_nodes.map Node.id =
      List.range
        ({ tree_nodes := [{ id := 0, label := "New Topic", text := "hey",
                            parent_id := none, children := [] }]
           current_parent := some 0
           conversation_history := ["hey"]
           node_counter := 1
           current_topic_label := some "New Topic" } :
           SessionState).node_counter ∧
    (∀ nd ∈ ({ tree_nodes := [{ id := 0, label := "New Topic", text := "hey",
                                parent_id := none, children := [] }]
               current_parent := some 0
               conversation_history := ["hey"]
               node_counter := 1
               current_topic_label := some "New Topic" } :
               SessionState).tree_nodes,
      nd.parent_id = if nd.id = 0 then none else some (nd.id - 1)) ∧
    (∀ nd ∈ ({ tree_nodes := [{ id := 0, label := "New Topic", text := "hey",
                                parent_id := none, children := [] }]
               current_parent := some 0
               conversation_history := ["hey"]
               node_counter := 1
               current_topic_label := some "New Topic" } :
               SessionState).tree_nodes,
      nd.parent_id = none → nd.id = 0) ∧
    (({ tree_nodes := [{ id := 0, label := "New Topic", text := "hey",
                         parent_id := none, children := [] }]
        current_parent := some 0
        conversation_history := ["hey"]
        node_counter := 1
        current_topic_label := some "New Topic" } :
        SessionState).tree_nodes ≠ [] →
      ({ tree_nodes := [{ id := 0, label := "New Topic", text := "hey",
                          parent_id := none, children := [] }]
         current_parent := some 0
         conversation_history := ["hey"]
         node_counter := 1
         current_topic_label := some "New Topic" } :
         SessionState).current_parent =
        some
          (({ tree_nodes := [{ id := 0, label := "New Topic", text := "hey",
                               parent_id := none, children := [] }]
              current_parent := some 0
              conversation_history := ["hey"]
              node_counter := 1
              current_topic_label := some "New Topic" } :
              SessionState).node_counter - 1)) :=
  C10_single_chain _ (Reachable.step .failure "hey" Reachable.init rfl)

end VoiceApp
